import Mathlib

/-!
Shallow embedding of the 30clicks photo upload/verification/replication
backend (an Express server over Firebase Storage with Dropbox replication).

The embedding models:
* the storage-safe folder-key derivation (`folderName`);
* the Dropbox path sanitizer (`sanitizeDropboxPath`);
* the Dropbox token manager state machine (degraded mode);
* the per-item Dropbox upload retry loop with backoff classification;
* the `/notify-print` background verification loop, including the
  legacy-folder fallback search and the manual-review alert on timeout.

The primary object store is modelled as a list of blob names; a polling
run takes a trace `Nat → List String` giving the store snapshot the
backend observes at each elapsed minute.
-/

/-- Characters kept unchanged by the folder-name derivation: the JS regex
class `[a-z0-9]` with the `i` flag, i.e. ASCII letters and digits. -/
def chIsAlnum (c : Char) : Bool :=
  ('a' ≤ c && c ≤ 'z') || ('A' ≤ c && c ≤ 'Z') || ('0' ≤ c && c ≤ '9')

/-- `address.replace(/[^a-z0-9]/gi, '_')`: every character that is not an
ASCII letter or digit is mapped to an underscore (src/index.js line 78,
src/unnamed/part_000 line 99). -/
def folderName (address : String) : String :=
  ⟨address.data.map (fun c => if chIsAlnum c then c else '_')⟩

theorem folderName_char_idem (c : Char) :
    (fun c => if chIsAlnum c then c else '_')
        ((fun c => if chIsAlnum c then c else '_') c) =
      (fun c => if chIsAlnum c then c else '_') c := by
  by_cases h : chIsAlnum c = true
  · simp [h]
  · simp [h]

/-- C8: the storage-safe key derivation is deterministic (it is a pure
function, so equal raw identifiers give equal keys) and idempotent:
re-deriving from its own output returns the output unchanged. -/
theorem folderName_det_idem (s t : String) (h : s = t) :
    folderName s = folderName t ∧ folderName (folderName s) = folderName s := by
  constructor
  · rw [h]
  · show (⟨(s.data.map _).map _⟩ : String) = ⟨s.data.map _⟩
    rw [List.map_map]
    congr 1
    apply List.map_congr_left
    intro c _
    exact folderName_char_idem c

/-- Witness for C8 at the concrete raw identifier "12 AB-34". -/
theorem folderName_det_idem_witness :
    folderName "12 AB-34" = folderName "12 AB-34" ∧
      folderName (folderName "12 AB-34") = folderName "12 AB-34" :=
  folderName_det_idem "12 AB-34" "12 AB-34" rfl

/-! ## Dropbox token manager (src/unnamed/part_001, `class DropboxTokenManager`) -/

/-- The fields of `DropboxTokenManager` that its methods read and write:
the cached access token (absent when neither the environment nor a refresh
ever supplied one), the time of the last successful refresh, the count of
consecutive completely-failed refresh calls, and the degraded-mode flag. -/
structure TokenState where
  accessToken : Option String
  lastRefresh : Nat
  consecutiveFailures : Nat
  isDegradedMode : Bool
deriving Repr, DecidableEq

/-- `this.maxConsecutiveFailures = 3` (part_001 line 15). -/
def maxConsecutiveFailures : Nat := 3

/-- `this.refreshTimeout = 3.5 * 60 * 60 * 1000` ms (part_001 line 12). -/
def refreshTimeoutMs : Nat := 12600000

/-- `handleTokenRefreshFailure` (part_001 lines 84-111): increment the
consecutive-failure count, enter degraded mode once the count reaches
`maxConsecutiveFailures`, and return the cached token (which may be
absent). The admin alert is a logging side effect with no state change;
the cached token itself is never modified here. -/
def handleTokenRefreshFailure (s : TokenState) : TokenState × Option String :=
  let s1 := { s with consecutiveFailures := s.consecutiveFailures + 1 }
  let s2 := if maxConsecutiveFailures ≤ s1.consecutiveFailures
            then { s1 with isDegradedMode := true } else s1
  (s2, s2.accessToken)

/-- Outcome of `getValidAccessToken`: either the cached token is returned
directly, or the method performs a network refresh first. -/
inductive TokenFetch where
  | cached : Option String → TokenFetch
  | refreshNeeded : TokenFetch
deriving Repr, DecidableEq

/-- `getValidAccessToken` (part_001 lines 133-149): in degraded mode the
cached token is returned with no refresh; otherwise a refresh happens when
the token is stale (older than `refreshTimeout`) or absent. -/
def getValidAccessToken (s : TokenState) (now : Nat) : TokenFetch :=
  if s.isDegradedMode then .cached s.accessToken
  else if refreshTimeoutMs < now - s.lastRefresh ∨ s.accessToken = none then
    .refreshNeeded
  else .cached s.accessToken

/-- `shouldAttemptDropboxOperation` (part_001 lines 152-158). -/
def shouldAttemptDropboxOperation (s : TokenState) : Bool :=
  if s.isDegradedMode then false else true

/-- `n` consecutive completely-failed refresh calls, each one ending in
`handleTokenRefreshFailure`. -/
def iterateRefreshFailures (s : TokenState) : Nat → TokenState
  | 0 => s
  | n + 1 => (handleTokenRefreshFailure (iterateRefreshFailures s n)).1

theorem handleFailure_accessToken (s : TokenState) :
    (handleTokenRefreshFailure s).1.accessToken = s.accessToken := by
  unfold handleTokenRefreshFailure
  dsimp only
  split <;> rfl

theorem iterateRefreshFailures_accessToken (s : TokenState) (n : Nat) :
    (iterateRefreshFailures s n).accessToken = s.accessToken := by
  induction n with
  | zero => rfl
  | succ n ih => rw [iterateRefreshFailures, handleFailure_accessToken, ih]

theorem iterateRefreshFailures_count (s : TokenState) (n : Nat) :
    (iterateRefreshFailures s n).consecutiveFailures =
      s.consecutiveFailures + n := by
  induction n with
  | zero => rfl
  | succ n ih =>
      rw [iterateRefreshFailures]
      unfold handleTokenRefreshFailure
      dsimp only
      split <;> simp [ih, Nat.add_assoc]

/-- C5: after `maxConsecutiveFailures` consecutive failed refresh calls
(starting from a clean failure count) the manager is degraded:
`shouldAttemptDropboxOperation` returns false, the cached access token is
exactly the one cached before the failures (never cleared or replaced),
and `getValidAccessToken` returns that cached token at every time `now`
without requesting a network refresh. -/
theorem degradedMode_spec (s : TokenState) (n : Nat) (t : String)
    (h0 : s.consecutiveFailures = 0) (hn : maxConsecutiveFailures ≤ n)
    (ht : s.accessToken = some t) :
    (iterateRefreshFailures s n).isDegradedMode = true ∧
    shouldAttemptDropboxOperation (iterateRefreshFailures s n) = false ∧
    (iterateRefreshFailures s n).accessToken = some t ∧
    ∀ now : Nat,
      getValidAccessToken (iterateRefreshFailures s n) now = .cached (some t) := by
  obtain ⟨m, rfl⟩ : ∃ m, n = m + 1 := by
    cases n with
    | zero => exact absurd hn (by decide)
    | succ m => exact ⟨m, rfl⟩
  have hdeg : (iterateRefreshFailures s (m + 1)).isDegradedMode = true := by
    rw [iterateRefreshFailures]
    unfold handleTokenRefreshFailure
    dsimp only
    rw [if_pos]
    · rw [iterateRefreshFailures_count, h0]
      omega
  have htok : (iterateRefreshFailures s (m + 1)).accessToken = some t := by
    rw [iterateRefreshFailures_accessToken, ht]
  refine ⟨hdeg, ?_, htok, ?_⟩
  · unfold shouldAttemptDropboxOperation
    rw [hdeg]
    rfl
  · intro now
    unfold getValidAccessToken
    rw [hdeg, htok]
    simp

/-- Witness for C5: a manager holding token "tok" with zero failures,
after exactly 3 failed refresh calls. -/
theorem degradedMode_spec_witness :
    (iterateRefreshFailures ⟨some "tok", 0, 0, false⟩ 3).isDegradedMode = true ∧
    shouldAttemptDropboxOperation (iterateRefreshFailures ⟨some "tok", 0, 0, false⟩ 3) = false ∧
    (iterateRefreshFailures ⟨some "tok", 0, 0, false⟩ 3).accessToken = some "tok" ∧
    ∀ now : Nat,
      getValidAccessToken (iterateRefreshFailures ⟨some "tok", 0, 0, false⟩ 3) now =
        .cached (some "tok") :=
  degradedMode_spec ⟨some "tok", 0, 0, false⟩ 3 "tok" rfl (by decide) rfl

/-! ## Upload failure classification and retry backoff
(src/unnamed/part_001 `uploadToDropboxFromFirebase` / `uploadToDropboxWithRetry`,
src/unnamed/part_000 `/notify-print` dispatcher retry loop) -/

/-- `p` is a prefix of `l` (on character lists, so that everything reduces
definitionally). -/
def isPrefixL : List Char → List Char → Bool
  | [], _ => true
  | _ :: _, [] => false
  | p :: ps, c :: cs => p = c && isPrefixL ps cs

/-- `hay` contains `needle` as a contiguous substring. -/
def containsSub (needle : List Char) : List Char → Bool
  | [] => needle.isEmpty
  | c :: cs => isPrefixL needle (c :: cs) || containsSub needle cs

/-- JS `s.includes(sub)`. -/
def strIncludes (s sub : String) : Bool := containsSub sub.data s.data

/-- The error value thrown by `uploadToDropboxFromFirebase` on a failed
Dropbox upload: its `message`, its `isRateLimit` marker, and the
rate-limit `retryAfter` field in milliseconds when present. -/
structure UploadError where
  message : String
  isRateLimit : Bool
  retryAfterMs : Option Nat
deriving Repr, DecidableEq

/-- Error construction in `uploadToDropboxFromFirebase` (part_001 lines
230-254): when the response's `error_summary` contains
"too_many_write_operations", throw `new Error('Rate limited by Dropbox')`
with `isRateLimit = true` and `retryAfter = (error.retry_after || 1) *
1000` ms; otherwise throw a generic error whose message embeds the HTTP
status and the error summary. -/
def classifyUploadFailure (status : Nat) (errorSummary : String)
    (retryAfterField : Option Nat) : UploadError :=
  if strIncludes errorSummary "too_many_write_operations" then
    { message := "Rate limited by Dropbox"
      isRateLimit := true
      retryAfterMs :=
        some ((match retryAfterField with
               | some r => if r = 0 then 1 else r
               | none => 1) * 1000) }
  else
    { message := "Failed to upload to Dropbox: " ++ Nat.repr status ++ " " ++ errorSummary
      isRateLimit := false
      retryAfterMs := none }

/-- The backoff computation of the `/notify-print` dispatcher's inline
retry loop (part_000 lines 426-434): 5000 ms when the caught error's
*message* contains "too_many_write_operations", otherwise exponential
backoff `2000 * 2^(retryCount-1)` capped at 8000 ms. -/
def backoffDelayInline (errMsg : String) (retryCount : Nat) : Nat :=
  if strIncludes errMsg "too_many_write_operations" then 5000
  else min (2000 * 2 ^ (retryCount - 1)) 8000

/-- The delay chosen by `uploadToDropboxWithRetry` (part_001 lines
278-289) after failed attempt number `attempt`: for a rate-limit error
carrying a truthy suggested delay, `max(retryAfter, 1000)` ms; otherwise
exponential backoff `2000 * 2^(attempt-1)` capped at 10000 ms. -/
def withRetryDelay (e : UploadError) (attempt : Nat) : Nat :=
  if e.isRateLimit && !(e.retryAfterMs.getD 0 == 0) then
    max (e.retryAfterMs.getD 0) 1000
  else min (2000 * 2 ^ (attempt - 1)) 10000

/-- C6 (evaluation at the failing input): a Dropbox rate-limit failure
suggesting a 5 s retry produces the error `Rate limited by Dropbox` with
`retryAfter = 5000` ms, but the `/notify-print` dispatcher's retry loop
matches on the *message* — which does not contain
"too_many_write_operations" — so after attempt 1 it waits the generic
2000 ms backoff, less than the suggested 5000 ms. The unused helper
`uploadToDropboxWithRetry` would have waited the suggested 5000 ms. -/
theorem rateLimit_backoff_bug :
    (classifyUploadFailure 429 "too_many_write_operations/.." (some 5)).isRateLimit = true ∧
    (classifyUploadFailure 429 "too_many_write_operations/.." (some 5)).retryAfterMs = some 5000 ∧
    strIncludes (classifyUploadFailure 429 "too_many_write_operations/.." (some 5)).message
      "too_many_write_operations" = false ∧
    backoffDelayInline
      (classifyUploadFailure 429 "too_many_write_operations/.." (some 5)).message 1 = 2000 ∧
    2000 < 5000 ∧
    withRetryDelay (classifyUploadFailure 429 "too_many_write_operations/.." (some 5)) 1 = 5000 := by
  decide

/-- `maxRetries = 3` in the `/notify-print` dispatcher (part_000 line 415). -/
def maxRetries : Nat := 3

/-- One item's upload retry loop from `/notify-print` (part_000 lines
413-436): `while (!dropboxSuccess && retryCount < maxRetries)`, where a
failed attempt increments `retryCount` and — when more attempts remain —
awaits `backoffDelayInline` of the caught message. `outcome n` is the
result of attempt `n + 1` (`none` = success, `some e` = the error
caught). The fuel argument starts at `maxRetries`, which bounds the
number of loop iterations. Returns the final `dropboxSuccess` flag and
the list of backoff delays awaited, in order. -/
def dropboxRetryLoopAux (outcome : Nat → Option UploadError) :
    Nat → Nat → List Nat → Bool × List Nat
  | 0, _, delays => (false, delays.reverse)
  | fuel + 1, retryCount, delays =>
    if retryCount < maxRetries then
      match outcome retryCount with
      | none => (true, delays.reverse)
      | some e =>
        if retryCount + 1 < maxRetries then
          dropboxRetryLoopAux outcome fuel (retryCount + 1)
            (backoffDelayInline e.message (retryCount + 1) :: delays)
        else (false, delays.reverse)
    else (false, delays.reverse)

/-- The retry loop as entered for each item: `dropboxSuccess = false`,
`retryCount = 0`, no delays awaited yet. -/
def dropboxRetryLoop (outcome : Nat → Option UploadError) : Bool × List Nat :=
  dropboxRetryLoopAux outcome maxRetries 0 []

/-- The `for` loop over `filesToUpload` (part_000 lines 395-443): every
item runs its own retry loop, and the loop always continues to the next
item because every upload error is caught inside the `while`. -/
def dispatchBatch (outcomes : List (Nat → Option UploadError)) :
    List (Bool × List Nat) :=
  outcomes.map dropboxRetryLoop

/-- C7: an item that fails twice then succeeds on the third attempt ends
with per-item success and exactly the two backoff delays recorded; an
item whose three attempts all fail ends with a recorded per-item failure;
and the batch always continues past any item — every item of the batch is
processed, one retry-loop result per item. -/
theorem retryLoop_spec (oc : Nat → Option UploadError) (e1 e2 : UploadError)
    (h0 : oc 0 = some e1) (h1 : oc 1 = some e2) (h2 : oc 2 = none)
    (ocAll : Nat → Option UploadError) (f1 f2 f3 : UploadError)
    (g0 : ocAll 0 = some f1) (g1 : ocAll 1 = some f2) (g2 : ocAll 2 = some f3)
    (rest : List (Nat → Option UploadError)) :
    dropboxRetryLoop oc =
      (true, [backoffDelayInline e1.message 1, backoffDelayInline e2.message 2]) ∧
    (dropboxRetryLoop ocAll).1 = false ∧
    dispatchBatch (ocAll :: rest) = dropboxRetryLoop ocAll :: dispatchBatch rest ∧
    (dispatchBatch rest).length = rest.length := by
  refine ⟨?_, ?_, rfl, by simp [dispatchBatch]⟩
  · simp [dropboxRetryLoop, dropboxRetryLoopAux, maxRetries, h0, h1, h2]
  · simp [dropboxRetryLoop, dropboxRetryLoopAux, maxRetries, g0, g1, g2]

/-- Witness for C7: one item failing twice then succeeding, one item
failing all three attempts, batch of one further item. -/
theorem retryLoop_spec_witness :
    dropboxRetryLoop (fun n => if n = 0 then some ⟨"a", false, none⟩
        else if n = 1 then some ⟨"b", false, none⟩ else none) =
      (true, [backoffDelayInline (UploadError.message ⟨"a", false, none⟩) 1,
              backoffDelayInline (UploadError.message ⟨"b", false, none⟩) 2]) ∧
    (dropboxRetryLoop (fun _ : Nat => some ⟨"c", false, none⟩)).1 = false ∧
    dispatchBatch ((fun _ : Nat => some ⟨"c", false, none⟩) ::
        [fun _ : Nat => (none : Option UploadError)]) =
      dropboxRetryLoop (fun _ : Nat => some ⟨"c", false, none⟩) ::
        dispatchBatch [fun _ : Nat => (none : Option UploadError)] ∧
    (dispatchBatch [fun _ : Nat => (none : Option UploadError)]).length =
      [fun _ : Nat => (none : Option UploadError)].length :=
  retryLoop_spec
    (fun n => if n = 0 then some ⟨"a", false, none⟩
        else if n = 1 then some ⟨"b", false, none⟩ else none)
    ⟨"a", false, none⟩ ⟨"b", false, none⟩ rfl rfl rfl
    (fun _ : Nat => some ⟨"c", false, none⟩)
    ⟨"c", false, none⟩ ⟨"c", false, none⟩ ⟨"c", false, none⟩ rfl rfl rfl
    [fun _ : Nat => (none : Option UploadError)]

/-! ## The `/notify-print` background verification loop
(src/unnamed/part_000 lines 226-471) -/

/-- JS `s.split(sep)` for a one-character separator, on character lists.
`split` never returns an empty array: splitting the empty string gives
`[""]`. -/
def splitOnCharL (sep : Char) : List Char → List (List Char)
  | [] => [[]]
  | c :: cs =>
    let r := splitOnCharL sep cs
    if c = sep then [] :: r
    else
      match r with
      | [] => [[c]]
      | p :: ps => (c :: p) :: ps

/-- `address.split('_')` (part_000 lines 263 and 327). -/
def addressParts (address : String) : List String :=
  (splitOnCharL '_' address.data).map (fun l => (⟨l⟩ : String))

/-- JS `s.startsWith(p)`. -/
def strStartsWith (s p : String) : Bool := isPrefixL p.data s.data

/-- JS `s.endsWith(p)`. -/
def strEndsWith (s p : String) : Bool := isPrefixL p.data.reverse s.data.reverse

/-- `file.name.split('/')[0]`: the top-level folder of a blob name. -/
def topFolder (name : String) : String :=
  (⟨(splitOnCharL '/' name.data).headD []⟩ : String)

/-- `.filter((folder, index, arr) => arr.indexOf(folder) === index)`:
keep the first occurrence of each element, in order. -/
def dedupKeepFirst (seen : List String) : List String → List String
  | [] => []
  | x :: xs =>
    if x ∈ seen then dedupKeepFirst seen xs
    else x :: dedupKeepFirst (x :: seen) xs

/-- `bucket.getFiles({ prefix: pfx })` followed by
`.filter(file => file.name !== pfx)`: all blob names under `pfx`,
excluding the zero-length folder marker itself. -/
def listAlbum (store : List String) (pfx : String) : List String :=
  (store.filter (fun f => strStartsWith f pfx)).filter (fun f => f ≠ pfx)

/-- An album path `folder/album{n}/` (part_000 lines 247, 284, 339). -/
def albumPath (folder : String) (albumNumber : Nat) : String :=
  folder ++ "/album" ++ Nat.repr albumNumber ++ "/"

/-- The legacy candidate folders (part_000 lines 275-279): the distinct
top-level folders of the whole store that start with the first address
component and end with the second. -/
def possibleFolders (allFiles : List String) (houseNumber postcode : String) :
    List String :=
  (dedupKeepFirst [] (allFiles.map topFolder)).filter
    (fun folder => strStartsWith folder houseNumber && strEndsWith folder postcode)

/-- The `for (const legacyFolder of possibleFolders)` scan (part_000
lines 283-295 and 338-350): return the first candidate whose album
listing holds strictly more than `threshold` photos, together with its
path and listing; the loop `break`s at the first hit, so later candidates
are never examined. The initial fallback passes `threshold = 0`
(`.length > 0`); the poll-loop fallback passes the current count
(`.length > totalPhotoCount`). -/
def findLegacy (store : List String) (albumNumber : Nat) (threshold : Nat) :
    List String → Option (String × List String)
  | [] => none
  | folder :: rest =>
    let pfx := albumPath folder albumNumber
    let photos := listAlbum store pfx
    if threshold < photos.length then some (pfx, photos)
    else findLegacy store albumNumber threshold rest

/-- `const photosTaken = 10 - photoCount` (part_000 line 304): the target
count the verification loop waits for. -/
def photosTaken (photoCount : Int) : Int := 10 - photoCount

/-- `const actualPhotoCount = 30 - photoCount` (part_000 line 240): the
photos-taken figure computed for the rest of the pipeline (the capacity
the reports use). -/
def actualPhotoCount (photoCount : Int) : Int := 30 - photoCount

/-- `const expectedPhotoCount = 30 - photoCount` (src/index.js lines
217-218): the expected count of the older fixed-attempt waiting loop. -/
def expectedPhotoCount (photoCount : Int) : Int := 30 - photoCount

/-- The initial listing with legacy fallback (part_000 lines 247-301):
list the canonical album path; when nothing is there and the address
splits on '_' into at least two parts (with candidate formats only built
for exactly two), adopt the first legacy candidate holding at least one
photo. Returns the active path and its files. -/
def initialListing (store : List String) (address : String) (albumNumber : Nat) :
    String × List String :=
  let canonical := albumPath (folderName address) albumNumber
  let files := listAlbum store canonical
  if files.length = 0 then
    let parts := addressParts address
    if 2 ≤ parts.length then
      if parts.length = 2 then
        match findLegacy store albumNumber 0
            (possibleFolders store (parts.getD 0 "") (parts.getD 1 "")) with
        | some (pfx, photos) => (pfx, photos)
        | none => (canonical, files)
      else (canonical, files)
    else (canonical, files)
  else (canonical, files)

/-- One poll iteration's re-listing (part_000 lines 320-352): re-list the
active path; when still short of the target and the address splits into
exactly two parts, adopt the first legacy candidate with strictly more
photos than the current count. -/
def pollRelist (store : List String) (address : String) (albumNumber : Nat)
    (target : Int) (activePath : String) : String × List String :=
  let files1 := listAlbum store activePath
  if (files1.length : Int) < target then
    let parts := addressParts address
    if parts.length = 2 then
      match findLegacy store albumNumber files1.length
          (possibleFolders store (parts.getD 0 "") (parts.getD 1 "")) with
      | some (pfx, photos) => (pfx, photos)
      | none => (activePath, files1)
    else (activePath, files1)
  else (activePath, files1)

/-- `const maxWaitMinutes = 60` (part_000 line 308). -/
def maxWaitMinutes : Nat := 60

/-- The verification wait loop (part_000 lines 307-364):
`while (waitMinutes < maxWaitMinutes && totalPhotoCount < photosTaken)`,
sleeping one minute per iteration and then re-listing (with the poll-loop
fallback) from the store snapshot at the new minute. The fuel argument is
`maxWaitMinutes - waitMinutes`, so running out of fuel is exactly the
`waitMinutes < maxWaitMinutes` condition failing. Returns the final
`waitMinutes`, active path, and files. -/
def pollLoop (trace : Nat → List String) (address : String) (albumNumber : Nat)
    (target : Int) : Nat → Nat → String → List String → Nat × String × List String
  | 0, waitMinutes, activePath, files => (waitMinutes, activePath, files)
  | fuel + 1, waitMinutes, activePath, files =>
    if (files.length : Int) < target then
      let pr := pollRelist (trace (waitMinutes + 1)) address albumNumber target activePath
      pollLoop trace address albumNumber target fuel (waitMinutes + 1) pr.1 pr.2
    else (waitMinutes, activePath, files)

/-- Outcome of the `/notify-print` background task: the final active
path, the files found, their count, the minutes waited, whether the order
proceeded to the Dropbox dispatch, and whether the manual-review alert
was sent instead. -/
structure VerifyResult where
  activePath : String
  files : List String
  totalPhotoCount : Nat
  waitMinutes : Nat
  dispatched : Bool
  manualReviewAlert : Bool
deriving Repr, DecidableEq

/-- The `/notify-print` background task for a well-formed request
(part_000 lines 238-453): initial listing with fallback, the wait loop,
then either `sendManualReviewAlert` and `return` without processing
(count short, lines 367-374) or dispatch of the found files (lines
376-452). -/
def notifyPrintBackground (trace : Nat → List String) (address : String)
    (albumNumber : Nat) (photoCount : Int) : VerifyResult :=
  let target := photosTaken photoCount
  let pr0 := initialListing (trace 0) address albumNumber
  let r := pollLoop trace address albumNumber target maxWaitMinutes 0 pr0.1 pr0.2
  if (r.2.2.length : Int) < target then
    { activePath := r.2.1, files := r.2.2, totalPhotoCount := r.2.2.length,
      waitMinutes := r.1, dispatched := false, manualReviewAlert := true }
  else
    { activePath := r.2.1, files := r.2.2, totalPhotoCount := r.2.2.length,
      waitMinutes := r.1, dispatched := true, manualReviewAlert := false }

/-- Canonical-only comparison loop: the wait loop with the legacy
fallback removed, re-listing only the fixed canonical path. -/
def pollLoopCanonOnly (trace : Nat → List String) (target : Int) :
    Nat → Nat → String → List String → Nat × String × List String
  | 0, waitMinutes, activePath, files => (waitMinutes, activePath, files)
  | fuel + 1, waitMinutes, activePath, files =>
    if (files.length : Int) < target then
      pollLoopCanonOnly trace target fuel (waitMinutes + 1) activePath
        (listAlbum (trace (waitMinutes + 1)) activePath)
    else (waitMinutes, activePath, files)

/-- Canonical-only comparison run: the background task with every legacy
fallback search removed, consulting only the canonical album path. -/
def notifyPrintBackgroundCanonOnly (trace : Nat → List String) (address : String)
    (albumNumber : Nat) (photoCount : Int) : VerifyResult :=
  let target := photosTaken photoCount
  let canonical := albumPath (folderName address) albumNumber
  let f0 := listAlbum (trace 0) canonical
  let r := pollLoopCanonOnly trace target maxWaitMinutes 0 canonical f0
  if (r.2.2.length : Int) < target then
    { activePath := r.2.1, files := r.2.2, totalPhotoCount := r.2.2.length,
      waitMinutes := r.1, dispatched := false, manualReviewAlert := true }
  else
    { activePath := r.2.1, files := r.2.2, totalPhotoCount := r.2.2.length,
      waitMinutes := r.1, dispatched := true, manualReviewAlert := false }

theorem pollLoop_done (trace : Nat → List String) (address : String)
    (albumNumber : Nat) (target : Int) (fuel waitMinutes : Nat) (p : String)
    (f : List String) (h : ¬ ((f.length : Int) < target)) :
    pollLoop trace address albumNumber target fuel waitMinutes p f =
      (waitMinutes, p, f) := by
  cases fuel with
  | zero => rfl
  | succ n =>
      simp only [pollLoop]
      rw [if_neg h]

theorem pollLoop_exhausts (trace : Nat → List String) (address : String)
    (albumNumber : Nat) (target : Int) :
    ∀ (fuel waitMinutes : Nat) (p : String) (f : List String),
      (((pollLoop trace address albumNumber target fuel waitMinutes p f).2.2).length : Int) <
        target →
      (pollLoop trace address albumNumber target fuel waitMinutes p f).1 =
        waitMinutes + fuel := by
  intro fuel
  induction fuel with
  | zero => intro w p f _; rfl
  | succ n ih =>
      intro w p f h
      by_cases hc : (f.length : Int) < target
      · simp only [pollLoop] at h ⊢
        rw [if_pos hc] at h ⊢
        rw [ih _ _ _ h]
        omega
      · simp only [pollLoop] at h ⊢
        rw [if_neg hc] at h ⊢
        exact absurd h hc

/-- C1 (evaluation at the failing input): the verification loop's target
`photosTaken` is computed with capacity 10 (`10 - photoCount`), not the
capacity 30 that `actualPhotoCount` in the same handler and
`expectedPhotoCount` in the older variant use: at reported remaining 0
the loop waits for 10 photos while the pipeline reports 30 taken. There
is also no clamping: remaining 25 gives the negative target -15, which
the loop compares against directly, so an empty store instantly
"verifies" and the order is dispatched rather than flagged. -/
theorem photosTaken_capacity_bug :
    photosTaken 0 = 10 ∧ actualPhotoCount 0 = 30 ∧ expectedPhotoCount 0 = 30 ∧
    photosTaken 0 ≠ actualPhotoCount 0 ∧
    photosTaken 25 = -15 ∧
    (notifyPrintBackground (fun _ : Nat => ([] : List String)) "1_AB" 1 25).dispatched
      = true ∧
    (notifyPrintBackground (fun _ : Nat => ([] : List String)) "1_AB" 1 25).totalPhotoCount
      = 0 := by
  decide

/-- The store trace of the C2 counterexample: 3 photos at minute 0,
4 photos at minute 1, then only 2 photos from minute 2 on (the store's
listing is eventually consistent and may regress). -/
def timeoutTrace : Nat → List String := fun n =>
  if n = 0 then
    ["12_AB34CD/album1/p1.jpg", "12_AB34CD/album1/p2.jpg", "12_AB34CD/album1/p3.jpg"]
  else if n = 1 then
    ["12_AB34CD/album1/p1.jpg", "12_AB34CD/album1/p2.jpg",
     "12_AB34CD/album1/p3.jpg", "12_AB34CD/album1/p4.jpg"]
  else
    ["12_AB34CD/album1/p1.jpg", "12_AB34CD/album1/p2.jpg"]

/-- C2 counterexample: session "12_AB34CD" expecting 5 photos over
`timeoutTrace` never reaches the target. The run ends with the
manual-review alert and `dispatched = false`: the partial batch is
discarded (`return; // Don't process incomplete orders`), not handed to
the Dropbox dispatcher; and the reported count is 2, the final poll's
listing, not the best count 4 observed at minute 1. -/
theorem verify_timeout_counterexample :
    (notifyPrintBackground timeoutTrace "12_AB34CD" 1 5).dispatched = false ∧
    (notifyPrintBackground timeoutTrace "12_AB34CD" 1 5).manualReviewAlert = true ∧
    (notifyPrintBackground timeoutTrace "12_AB34CD" 1 5).waitMinutes = 60 ∧
    (notifyPrintBackground timeoutTrace "12_AB34CD" 1 5).totalPhotoCount = 2 ∧
    (listAlbum (timeoutTrace 1) (albumPath (folderName "12_AB34CD") 1)).length = 4 := by
  decide

/-- C2 amended: when the found count stays short of the target, the wait
loop ends exactly when `maxWaitMinutes` elapse (neither earlier nor
later), the manual-review alert is sent reporting the count of the final
listing, and the run returns without dispatching — the partial batch is
discarded, not handed to the Dropbox dispatcher. -/
theorem verify_timeout_spec (trace : Nat → List String) (address : String)
    (albumNumber : Nat) (photoCount : Int)
    (h : ((notifyPrintBackground trace address albumNumber photoCount).totalPhotoCount : Int)
      < photosTaken photoCount) :
    (notifyPrintBackground trace address albumNumber photoCount).waitMinutes
      = maxWaitMinutes ∧
    (notifyPrintBackground trace address albumNumber photoCount).dispatched = false ∧
    (notifyPrintBackground trace address albumNumber photoCount).manualReviewAlert = true ∧
    (notifyPrintBackground trace address albumNumber photoCount).totalPhotoCount
      = (notifyPrintBackground trace address albumNumber photoCount).files.length := by
  have hlen : (notifyPrintBackground trace address albumNumber photoCount).totalPhotoCount
      = ((pollLoop trace address albumNumber (photosTaken photoCount) maxWaitMinutes 0
          (initialListing (trace 0) address albumNumber).1
          (initialListing (trace 0) address albumNumber).2).2.2).length := by
    unfold notifyPrintBackground
    dsimp only
    split <;> rfl
  have hc : (((pollLoop trace address albumNumber (photosTaken photoCount) maxWaitMinutes 0
      (initialListing (trace 0) address albumNumber).1
      (initialListing (trace 0) address albumNumber).2).2.2).length : Int)
      < photosTaken photoCount := by
    rw [hlen] at h
    exact h
  have hw := pollLoop_exhausts trace address albumNumber (photosTaken photoCount)
    maxWaitMinutes 0 (initialListing (trace 0) address albumNumber).1
    (initialListing (trace 0) address albumNumber).2 hc
  unfold notifyPrintBackground
  dsimp only
  rw [if_pos hc]
  refine ⟨?_, rfl, rfl, rfl⟩
  rw [hw]
  simp

/-- Witness for C2 (amended) at the `timeoutTrace` scenario. -/
theorem verify_timeout_spec_witness :
    (notifyPrintBackground timeoutTrace "12_AB34CD" 1 5).waitMinutes = maxWaitMinutes ∧
    (notifyPrintBackground timeoutTrace "12_AB34CD" 1 5).dispatched = false ∧
    (notifyPrintBackground timeoutTrace "12_AB34CD" 1 5).manualReviewAlert = true ∧
    (notifyPrintBackground timeoutTrace "12_AB34CD" 1 5).totalPhotoCount
      = (notifyPrintBackground timeoutTrace "12_AB34CD" 1 5).files.length :=
  verify_timeout_spec timeoutTrace "12_AB34CD" 1 5 (by decide)

/-- The store of the C4 scenario: the canonical folder for raw address
"12_AB" is empty, while two historically-keyed folders both start with
"12" and end with "AB" — the first candidate holds 3 photos, the second
holds 5. -/
def legacyStore : List String :=
  ["12Foo_AB/album1/q1.jpg", "12Foo_AB/album1/q2.jpg", "12Foo_AB/album1/q3.jpg",
   "12Bar_AB/album1/r1.jpg", "12Bar_AB/album1/r2.jpg", "12Bar_AB/album1/r3.jpg",
   "12Bar_AB/album1/r4.jpg", "12Bar_AB/album1/r5.jpg"]

/-- C4 counterexample: with expected count 3 (photoCount 7) over
`legacyStore`, the initial fallback adopts "12Foo_AB/album1/" — the first
candidate with a non-empty listing (3 photos) — even though candidate
"12Bar_AB/album1/" holds 5 photos; the candidate with the most items is
not kept. -/
theorem legacy_best_counterexample :
    (notifyPrintBackground (fun _ : Nat => legacyStore) "12_AB" 1 7).dispatched = true ∧
    (notifyPrintBackground (fun _ : Nat => legacyStore) "12_AB" 1 7).activePath
      = "12Foo_AB/album1/" ∧
    (notifyPrintBackground (fun _ : Nat => legacyStore) "12_AB" 1 7).totalPhotoCount = 3 ∧
    (listAlbum legacyStore "12Bar_AB/album1/").length = 5 := by
  decide

/-- C4 amended: when the canonical listing is empty and the address
splits on '_' into exactly two components, the initial fallback scan
adopts the *first* candidate folder whose album listing is non-empty
(`findLegacy` with threshold 0) — not the candidate with the most items —
and when that adopted listing already meets the expected count the run
dispatches it immediately (verdict COMPLETE, no polling). -/
theorem legacy_fallback_adopts_first (trace : Nat → List String) (address : String)
    (albumNumber : Nat) (photoCount : Int) (pfx : String) (photos : List String)
    (hempty : listAlbum (trace 0) (albumPath (folderName address) albumNumber) = [])
    (hparts : (addressParts address).length = 2)
    (hfind : findLegacy (trace 0) albumNumber 0
        (possibleFolders (trace 0) ((addressParts address).getD 0 "")
          ((addressParts address).getD 1 "")) = some (pfx, photos))
    (hcount : photosTaken photoCount ≤ (photos.length : Int)) :
    (notifyPrintBackground trace address albumNumber photoCount).activePath = pfx ∧
    (notifyPrintBackground trace address albumNumber photoCount).files = photos ∧
    (notifyPrintBackground trace address albumNumber photoCount).dispatched = true ∧
    (notifyPrintBackground trace address albumNumber photoCount).waitMinutes = 0 := by
  have hinit : initialListing (trace 0) address albumNumber = (pfx, photos) := by
    unfold initialListing
    dsimp only
    rw [hempty]
    rw [if_pos (show (List.length ([] : List String)) = 0 from rfl)]
    rw [if_pos (show 2 ≤ (addressParts address).length from by omega)]
    rw [if_pos hparts]
    rw [hfind]
  have hnc : ¬ ((photos.length : Int) < photosTaken photoCount) := not_lt.mpr hcount
  unfold notifyPrintBackground
  dsimp only
  rw [hinit]
  dsimp only
  rw [pollLoop_done trace address albumNumber (photosTaken photoCount)
    maxWaitMinutes 0 pfx photos hnc]
  dsimp only
  rw [if_neg hnc]
  exact ⟨rfl, rfl, rfl, rfl⟩

/-- Witness for C4 (amended) at the `legacyStore` scenario. -/
theorem legacy_fallback_adopts_first_witness :
    (notifyPrintBackground (fun _ : Nat => legacyStore) "12_AB" 1 7).activePath
      = "12Foo_AB/album1/" ∧
    (notifyPrintBackground (fun _ : Nat => legacyStore) "12_AB" 1 7).files
      = ["12Foo_AB/album1/q1.jpg", "12Foo_AB/album1/q2.jpg", "12Foo_AB/album1/q3.jpg"] ∧
    (notifyPrintBackground (fun _ : Nat => legacyStore) "12_AB" 1 7).dispatched = true ∧
    (notifyPrintBackground (fun _ : Nat => legacyStore) "12_AB" 1 7).waitMinutes = 0 :=
  legacy_fallback_adopts_first (fun _ : Nat => legacyStore) "12_AB" 1 7
    "12Foo_AB/album1/"
    ["12Foo_AB/album1/q1.jpg", "12Foo_AB/album1/q2.jpg", "12Foo_AB/album1/q3.jpg"]
    (by decide) (by decide) (by decide) (by decide)

theorem initialListing_no_fallback (store : List String) (address : String)
    (albumNumber : Nat) (h : (addressParts address).length ≠ 2) :
    initialListing store address albumNumber =
      (albumPath (folderName address) albumNumber,
       listAlbum store (albumPath (folderName address) albumNumber)) := by
  unfold initialListing
  dsimp only
  rw [if_neg h]
  split
  · split <;> rfl
  · rfl

theorem pollRelist_no_fallback (store : List String) (address : String)
    (albumNumber : Nat) (target : Int) (activePath : String)
    (h : (addressParts address).length ≠ 2) :
    pollRelist store address albumNumber target activePath =
      (activePath, listAlbum store activePath) := by
  unfold pollRelist
  dsimp only
  rw [if_neg h]
  split <;> rfl

theorem pollLoop_no_fallback (trace : Nat → List String) (address : String)
    (albumNumber : Nat) (target : Int)
    (h : (addressParts address).length ≠ 2) :
    ∀ (fuel waitMinutes : Nat) (p : String) (f : List String),
      pollLoop trace address albumNumber target fuel waitMinutes p f =
        pollLoopCanonOnly trace target fuel waitMinutes p f := by
  intro fuel
  induction fuel with
  | zero => intro w p f; rfl
  | succ n ih =>
      intro w p f
      simp only [pollLoop, pollLoopCanonOnly]
      by_cases hc : (f.length : Int) < target
      · rw [if_pos hc, if_pos hc,
          pollRelist_no_fallback (trace (w + 1)) address albumNumber target p h]
        exact ih _ _ _
      · rw [if_neg hc, if_neg hc]

/-- C9: the legacy fallback (both the initial search and the one re-run
inside the poll loop) executes only when the raw address splits on '_'
into exactly two components: for every address with one component or with
three or more (e.g. the newer email_houseNumber_postcode format), the
whole background run coincides with the canonical-prefix-only run — no
alternate prefix is ever searched or adopted. -/
theorem fallback_only_for_two_parts (trace : Nat → List String) (address : String)
    (albumNumber : Nat) (photoCount : Int)
    (h : (addressParts address).length ≠ 2) :
    notifyPrintBackground trace address albumNumber photoCount =
      notifyPrintBackgroundCanonOnly trace address albumNumber photoCount := by
  unfold notifyPrintBackground notifyPrintBackgroundCanonOnly
  dsimp only
  rw [initialListing_no_fallback (trace 0) address albumNumber h]
  rw [pollLoop_no_fallback trace address albumNumber (photosTaken photoCount) h]

/-- Witness for C9 at the three-component address "a_b_c". -/
theorem fallback_only_for_two_parts_witness :
    notifyPrintBackground (fun _ : Nat => ([] : List String)) "a_b_c" 1 3 =
      notifyPrintBackgroundCanonOnly (fun _ : Nat => ([] : List String)) "a_b_c" 1 3 :=
  fallback_only_for_two_parts (fun _ : Nat => ([] : List String)) "a_b_c" 1 3 (by decide)

/-! ## The `/notify-print` trigger boundary (src/unnamed/part_000 lines 226-241) -/

/-- The `/notify-print` request body as the handler destructures it:
`address` and `photoCount` may each be absent (or, for `photoCount`,
non-numeric — both behave as NaN downstream). -/
structure NotifyRequest where
  address : Option String
  photoCount : Option Int
deriving Repr, DecidableEq

/-- The acknowledgment the handler sends synchronously. -/
structure Ack where
  success : Bool
  status : Nat
deriving Repr, DecidableEq

/-- The synchronous part of `app.post('/notify-print')` (part_000 lines
226-238): destructure the body — no validation of any field — then
immediately send `res.json({ success: true, ... })` (HTTP 200) and
schedule the background task with `setImmediate`, unconditionally for
every request. Returns the ack and whether the background task was
scheduled. Destructuring cannot throw, so the catch branch that would
send a 500 is unreachable on the synchronous path. -/
def notifyPrintSync (req : NotifyRequest) : Ack × Bool :=
  match req with
  | _ => (⟨true, 200⟩, true)

/-- The background task over an optional body: an absent `address` makes
`address.replace(/[^a-z0-9]/gi, '_')` throw a TypeError that the
background `catch` (part_000 lines 455-457) only logs — no verification,
alert, or dispatch happens (`none`). An absent (or non-numeric)
`photoCount` makes the target `10 - photoCount` NaN; every `<` comparison
against NaN is false, so the wait loop never iterates and the final
shortfall check also fails: the order is dispatched immediately with
whatever the initial listing found. -/
def notifyPrintBackgroundOpt (trace : Nat → List String) (req : NotifyRequest)
    (albumNumber : Nat) : Option VerifyResult :=
  match req.address with
  | none => none
  | some addr =>
    match req.photoCount with
    | some pc => some (notifyPrintBackground trace addr albumNumber pc)
    | none =>
      some { activePath := (initialListing (trace 0) addr albumNumber).1,
             files := (initialListing (trace 0) addr albumNumber).2,
             totalPhotoCount := (initialListing (trace 0) addr albumNumber).2.length,
             waitMinutes := 0, dispatched := true, manualReviewAlert := false }

/-- C3 counterexample: the fully malformed request (no address, no
count) still receives the immediate success acknowledgment (HTTP 200)
and the background task is still scheduled — nothing is rejected
synchronously; the background task then dies on the missing address with
only a log. -/
theorem trigger_validation_counterexample :
    (notifyPrintSync ⟨none, none⟩).1 = ⟨true, 200⟩ ∧
    (notifyPrintSync ⟨none, none⟩).2 = true ∧
    notifyPrintBackgroundOpt (fun _ : Nat => ([] : List String)) ⟨none, none⟩ 1 = none := by
  decide

/-- C3 amended: every trigger request — malformed or not — receives the
immediate success acknowledgment and has the background task scheduled;
there is no synchronous validation or rejection. A request with a
missing address fails later, inside the background task, where the error
is caught and logged, never surfaced to the client. -/
theorem trigger_ack_unconditional (req : NotifyRequest) (trace : Nat → List String)
    (albumNumber : Nat) (h : req.address = none) :
    (notifyPrintSync req).1.success = true ∧
    (notifyPrintSync req).1.status = 200 ∧
    (notifyPrintSync req).2 = true ∧
    notifyPrintBackgroundOpt trace req albumNumber = none := by
  refine ⟨rfl, rfl, rfl, ?_⟩
  unfold notifyPrintBackgroundOpt
  rw [h]

/-- Witness for C3 (amended) at a request missing only the address. -/
theorem trigger_ack_unconditional_witness :
    (notifyPrintSync ⟨none, some 5⟩).1.success = true ∧
    (notifyPrintSync ⟨none, some 5⟩).1.status = 200 ∧
    (notifyPrintSync ⟨none, some 5⟩).2 = true ∧
    notifyPrintBackgroundOpt (fun _ : Nat => ([] : List String)) ⟨none, some 5⟩ 1 = none :=
  trigger_ack_unconditional ⟨none, some 5⟩ (fun _ : Nat => ([] : List String)) 1 rfl

/-! ## sanitizeDropboxPath (src/unnamed/part_001 lines 172-179) -/

/-- The quote characters removed by `.replace(/['"'']/g, '')`. -/
def chIsQuote (c : Char) : Bool := c = '\'' || c = '\"'

/-- A hex digit of the `/%[0-9A-F]{2}/i` pattern. -/
def chIsHex (c : Char) : Bool :=
  ('0' ≤ c && c ≤ '9') || ('A' ≤ c && c ≤ 'F') || ('a' ≤ c && c ≤ 'f')

/-- `.replace(/%[0-9A-F]{2}/gi, '')`: left-to-right, non-overlapping
removal of percent escapes; after a match the scan resumes past it, and a
'%' not followed by two hex digits is kept. -/
def removePctHex : List Char → List Char
  | [] => []
  | [c] => [c]
  | [c, d] => [c, d]
  | c :: a :: b :: rest =>
    if c = '%' && chIsHex a && chIsHex b then removePctHex rest
    else c :: removePctHex (a :: b :: rest)

/-- JS `\w`: ASCII letters, digits, and underscore. -/
def chIsWord (c : Char) : Bool := chIsAlnum c || c = '_'

/-- JS `\s` whitespace: space, tab, line feed, carriage return, vertical
tab, form feed, no-break space, and the BOM. -/
def chIsSpace (c : Char) : Bool :=
  c = ' ' || c = '\t' || c = '\n' || c = '\r' ||
  c = '\x0b' || c = '\x0c' || c = ' ' || c = '﻿'

/-- Characters the class `[^\w\s\-_./]` leaves unchanged. -/
def chKeep (c : Char) : Bool :=
  chIsWord c || chIsSpace c || c = '-' || c = '.' || c = '/'

/-- `.replace(/[^\w\s\-_./]/g, '_')`. -/
def replaceSpecial (l : List Char) : List Char :=
  l.map (fun c => if chKeep c then c else '_')

/-- `.replace(/X+/g, r)` for a character class `X`: replace every maximal
run of characters satisfying `p` by the single character `r`. `inRun`
records whether the previous character belonged to a run. -/
def collapseRuns (p : Char → Bool) (r : Char) : Bool → List Char → List Char
  | _, [] => []
  | inRun, c :: cs =>
    if p c then (if inRun then [] else [r]) ++ collapseRuns p r true cs
    else c :: collapseRuns p r false cs

/-- `sanitizeDropboxPath` (part_001 lines 172-179): remove quotes, remove
percent escapes, replace the remaining special characters by underscores,
replace whitespace runs by single underscores, and collapse underscore
runs. -/
def sanitizeDropboxPath (path : String) : String :=
  ⟨collapseRuns (fun c => c = '_') '_' false
    (collapseRuns chIsSpace '_' false
      (replaceSpecial
        (removePctHex
          (path.data.filter (fun c => !(chIsQuote c))))))⟩

/-- The character set the C10 claim allows in sanitized output:
alphanumerics, underscore, hyphen, dot, slash. -/
def chSafe (c : Char) : Bool :=
  chIsAlnum c || c = '_' || c = '-' || c = '.' || c = '/'

/-- No two adjacent characters of the list both satisfy `p`. -/
def noAdjacent (p : Char → Bool) : List Char → Bool
  | a :: b :: rest => !(p a && p b) && noAdjacent p (b :: rest)
  | _ => true

/-- The head of the list, when present, does not satisfy `p`. -/
def headNotP (p : Char → Bool) : List Char → Bool
  | [] => true
  | c :: _ => !(p c)

theorem collapseRuns_cons_pos_false (p : Char → Bool) (r a : Char) (as : List Char)
    (hp : p a = true) :
    collapseRuns p r false (a :: as) = r :: collapseRuns p r true as := by
  simp only [collapseRuns, if_pos hp]
  rfl

theorem collapseRuns_cons_pos_true (p : Char → Bool) (r a : Char) (as : List Char)
    (hp : p a = true) :
    collapseRuns p r true (a :: as) = collapseRuns p r true as := by
  simp only [collapseRuns, if_pos hp]
  rfl

theorem collapseRuns_cons_neg (p : Char → Bool) (r a : Char) (as : List Char) (b : Bool)
    (hp : ¬ p a = true) :
    collapseRuns p r b (a :: as) = a :: collapseRuns p r false as := by
  simp only [collapseRuns, if_neg hp]

theorem collapseRuns_mem (p : Char → Bool) (r : Char) :
    ∀ (l : List Char) (b : Bool) (c : Char),
      c ∈ collapseRuns p r b l → c = r ∨ (c ∈ l ∧ p c = false) := by
  intro l
  induction l with
  | nil =>
      intro b c hc
      exact absurd hc (List.not_mem_nil c)
  | cons a as ih =>
      intro b c hc
      by_cases hp : p a = true
      · cases b with
        | false =>
            rw [collapseRuns_cons_pos_false p r a as hp] at hc
            rcases List.mem_cons.mp hc with rfl | h2
            · exact Or.inl rfl
            · rcases ih true c h2 with h | ⟨hm, hpc⟩
              · exact Or.inl h
              · exact Or.inr ⟨List.mem_cons_of_mem a hm, hpc⟩
        | true =>
            rw [collapseRuns_cons_pos_true p r a as hp] at hc
            rcases ih true c hc with h | ⟨hm, hpc⟩
            · exact Or.inl h
            · exact Or.inr ⟨List.mem_cons_of_mem a hm, hpc⟩
      · rw [collapseRuns_cons_neg p r a as b hp] at hc
        have hp' : p a = false := by revert hp; cases (p a) <;> simp
        rcases List.mem_cons.mp hc with h1 | h2
        · subst h1
          exact Or.inr ⟨List.mem_cons_self _ _, hp'⟩
        · rcases ih false c h2 with h | ⟨hm, hpc⟩
          · exact Or.inl h
          · exact Or.inr ⟨List.mem_cons_of_mem a hm, hpc⟩

theorem collapseRuns_noAdj (p : Char → Bool) (r : Char) :
    ∀ (l : List Char) (b : Bool),
      noAdjacent p (collapseRuns p r b l) = true ∧
      (b = true → headNotP p (collapseRuns p r b l) = true) := by
  intro l
  induction l with
  | nil => intro b; exact ⟨rfl, fun _ => rfl⟩
  | cons a as ih =>
      intro b
      by_cases hp : p a = true
      · cases b with
        | true =>
            rw [collapseRuns_cons_pos_true p r a as hp]
            obtain ⟨hAdj, hHead⟩ := ih true
            exact ⟨hAdj, fun _ => hHead rfl⟩
        | false =>
            rw [collapseRuns_cons_pos_false p r a as hp]
            obtain ⟨hAdj, hHead⟩ := ih true
            refine ⟨?_, fun h => by cases h⟩
            cases hrec : collapseRuns p r true as with
            | nil => rfl
            | cons d ds =>
                rw [hrec] at hAdj hHead
                have h5 := hHead rfl
                have hd : p d = false := by
                  cases hpd : p d
                  · rfl
                  · rw [show headNotP p (d :: ds) = !(p d) from rfl, hpd] at h5
                    simp at h5
                show (!(p r && p d) && noAdjacent p (d :: ds)) = true
                rw [hd, hAdj]
                simp
      · have hp' : p a = false := by revert hp; cases (p a) <;> simp
        rw [collapseRuns_cons_neg p r a as b hp]
        obtain ⟨hAdj, _⟩ := ih false
        refine ⟨?_, fun _ => ?_⟩
        · cases hrec : collapseRuns p r false as with
          | nil => rfl
          | cons d ds =>
              rw [hrec] at hAdj
              show (!(p a && p d) && noAdjacent p (d :: ds)) = true
              rw [hp', hAdj]
              simp
        · show (!(p a)) = true
          rw [hp']
          rfl

theorem chKeep_safe (c : Char) (hk : chKeep c = true) (hs : chIsSpace c = false) :
    chSafe c = true := by
  unfold chKeep chIsWord at hk
  rw [hs] at hk
  unfold chSafe
  simp only [Bool.or_eq_true, decide_eq_true_eq] at hk ⊢
  tauto

theorem chSafe_keep (c : Char) (h : chSafe c = true) : chKeep c = true := by
  unfold chSafe at h
  unfold chKeep chIsWord
  simp only [Bool.or_eq_true, decide_eq_true_eq] at h ⊢
  tauto

theorem chSafe_not_space_quote (c : Char) (h : chSafe c = true) :
    chIsSpace c = false ∧ chIsQuote c = false := by
  constructor
  · cases hc : chIsSpace c
    · rfl
    · exfalso
      have hmem : c ∈ [' ', '\t', '\n', '\r', '\x0b', '\x0c', ' ', '﻿'] := by
        unfold chIsSpace at hc
        simp only [Bool.or_eq_true, decide_eq_true_eq] at hc
        simp only [List.mem_cons, List.not_mem_nil, or_false]
        tauto
      fin_cases hmem <;> exact absurd h (by decide)
  · cases hc : chIsQuote c
    · rfl
    · exfalso
      have hmem : c ∈ ['\'', '\"'] := by
        unfold chIsQuote at hc
        simp only [Bool.or_eq_true, decide_eq_true_eq] at hc
        simp only [List.mem_cons, List.not_mem_nil, or_false]
        tauto
      fin_cases hmem <;> exact absurd h (by decide)

theorem replaceSpecial_mem (l : List Char) (c : Char) (hc : c ∈ replaceSpecial l) :
    chKeep c = true := by
  rcases List.mem_map.mp hc with ⟨x, _, rfl⟩
  by_cases hk : chKeep x = true
  · rw [if_pos hk]
    exact hk
  · rw [if_neg hk]
    decide

theorem removePctHex_id : ∀ l : List Char, (∀ c ∈ l, ¬ (c = '%')) → removePctHex l = l
  | [], _ => rfl
  | [_], _ => rfl
  | [_, _], _ => rfl
  | c :: a :: b :: rest, h => by
      have hc : ¬ (c = '%') := h c (List.mem_cons_self _ _)
      show (if c = '%' && chIsHex a && chIsHex b then removePctHex rest
            else c :: removePctHex (a :: b :: rest)) = c :: a :: b :: rest
      rw [if_neg (by simp [hc])]
      rw [removePctHex_id (a :: b :: rest)
        (fun x hx => h x (List.mem_cons_of_mem c hx))]

theorem collapseRuns_id_of_none (p : Char → Bool) (r : Char) :
    ∀ l : List Char, (∀ c ∈ l, p c = false) → collapseRuns p r false l = l := by
  intro l
  induction l with
  | nil => intro _; rfl
  | cons a as ih =>
      intro h
      have hp : ¬ p a = true := by
        rw [h a (List.mem_cons_self a as)]
        simp
      rw [collapseRuns_cons_neg p r a as false hp]
      rw [ih (fun c hc => h c (List.mem_cons_of_mem a hc))]

theorem collapseRuns_id_of_noAdj (r : Char) :
    ∀ (l : List Char) (b : Bool),
      noAdjacent (fun c => c = r) l = true →
      (b = true → headNotP (fun c => c = r) l = true) →
      collapseRuns (fun c => c = r) r b l = l := by
  intro l
  induction l with
  | nil => intro b _ _; cases b <;> rfl
  | cons a as ih =>
      intro b hAdj hHead
      have hAdjTail : noAdjacent (fun c => c = r) as = true := by
        cases as with
        | nil => rfl
        | cons d ds =>
            have h2 : (!((decide (a = r)) && (decide (d = r))) &&
                noAdjacent (fun c => c = r) (d :: ds)) = true := hAdj
            simp only [Bool.and_eq_true] at h2
            exact h2.2
      cases b with
      | true =>
          have ha : ¬ (decide (a = r) = true) := by
            have h3 := hHead rfl
            show ¬ _
            intro hcon
            rw [show headNotP (fun c => c = r) (a :: as) = !(decide (a = r)) from rfl,
              hcon] at h3
            simp at h3
          rw [collapseRuns_cons_neg _ r a as true ha]
          rw [ih false hAdjTail (fun h => by cases h)]
      | false =>
          by_cases ha : a = r
          · have hp : (fun c => decide (c = r)) a = true := by simp [ha]
            rw [collapseRuns_cons_pos_false _ r a as hp]
            have hHeadTail : headNotP (fun c => c = r) as = true := by
              cases as with
              | nil => rfl
              | cons d ds =>
                  have h2 : (!((decide (a = r)) && (decide (d = r))) &&
                      noAdjacent (fun c => c = r) (d :: ds)) = true := hAdj
                  simp only [Bool.and_eq_true] at h2
                  have h3 := h2.1
                  rw [show (decide (a = r)) = true from by simp [ha]] at h3
                  show (!(decide (d = r))) = true
                  simpa using h3
            rw [ih true hAdjTail (fun _ => hHeadTail), ha]
          · have hp : ¬ ((fun c => decide (c = r)) a = true) := by simp [ha]
            rw [collapseRuns_cons_neg _ r a as false hp]
            rw [ih false hAdjTail (fun h => by cases h)]

theorem sanitize_all_safe (path : String) :
    ∀ c ∈ (sanitizeDropboxPath path).data, chSafe c = true := by
  intro c hc
  have hc5 : c ∈ collapseRuns (fun c => c = '_') '_' false
      (collapseRuns chIsSpace '_' false
        (replaceSpecial (removePctHex
          (path.data.filter (fun c => !(chIsQuote c)))))) := hc
  rcases collapseRuns_mem _ '_' _ false c hc5 with rfl | ⟨hc4, _⟩
  · decide
  · rcases collapseRuns_mem chIsSpace '_' _ false c hc4 with rfl | ⟨hc3, hns⟩
    · decide
    · exact chKeep_safe c (replaceSpecial_mem _ c hc3) hns

theorem sanitize_noDouble (path : String) :
    noAdjacent (fun c => c = '_') (sanitizeDropboxPath path).data = true :=
  (collapseRuns_noAdj (fun c => c = '_') '_'
    (collapseRuns chIsSpace '_' false
      (replaceSpecial (removePctHex
        (path.data.filter (fun c => !(chIsQuote c)))))) false).1

theorem sanitize_idem (path : String) :
    sanitizeDropboxPath (sanitizeDropboxPath path) = sanitizeDropboxPath path := by
  have hsafe := sanitize_all_safe path
  have h1 : (sanitizeDropboxPath path).data.filter (fun c => !(chIsQuote c)) =
      (sanitizeDropboxPath path).data := by
    apply List.filter_eq_self.mpr
    intro a ha
    rw [(chSafe_not_space_quote a (hsafe a ha)).2]
    rfl
  have h2 : removePctHex (sanitizeDropboxPath path).data =
      (sanitizeDropboxPath path).data := by
    apply removePctHex_id
    intro a ha hpc
    have h := hsafe a ha
    rw [hpc] at h
    exact absurd h (by decide)
  have h3 : replaceSpecial (sanitizeDropboxPath path).data =
      (sanitizeDropboxPath path).data := by
    have hid : ∀ a ∈ (sanitizeDropboxPath path).data,
        (fun c => if chKeep c then c else '_') a = id a :=
      fun a ha => if_pos (chSafe_keep a (hsafe a ha))
    unfold replaceSpecial
    rw [List.map_congr_left hid, List.map_id]
  have h4 : collapseRuns chIsSpace '_' false (sanitizeDropboxPath path).data =
      (sanitizeDropboxPath path).data := by
    apply collapseRuns_id_of_none
    intro a ha
    exact (chSafe_not_space_quote a (hsafe a ha)).1
  have h5 : collapseRuns (fun c => c = '_') '_' false (sanitizeDropboxPath path).data =
      (sanitizeDropboxPath path).data :=
    collapseRuns_id_of_noAdj '_' (sanitizeDropboxPath path).data false
      (sanitize_noDouble path) (fun h => by cases h)
  show sanitizeDropboxPath (sanitizeDropboxPath path) = sanitizeDropboxPath path
  conv_lhs => rw [sanitizeDropboxPath]
  rw [h1, h2, h3, h4, h5]

/-- C10: every output of `sanitizeDropboxPath` — hence every destination
path actually sent to the Dropbox upload API — contains only
alphanumerics, underscore, hyphen, dot, and slash; it contains no
whitespace and no quote characters and no two consecutive underscores;
and the sanitizer is idempotent (and, being a pure function,
deterministic), so sanitizing an already-sanitized path returns it
unchanged. -/
theorem sanitizeDropboxPath_full_spec (path : String) :
    (sanitizeDropboxPath path).data.all (fun c => chSafe c) = true ∧
    (sanitizeDropboxPath path).data.all
      (fun c => !(chIsSpace c) && !(chIsQuote c)) = true ∧
    noAdjacent (fun c => c = '_') (sanitizeDropboxPath path).data = true ∧
    sanitizeDropboxPath (sanitizeDropboxPath path) = sanitizeDropboxPath path := by
  refine ⟨?_, ?_, sanitize_noDouble path, sanitize_idem path⟩
  · apply List.all_eq_true.mpr
    intro c hc
    exact sanitize_all_safe path c hc
  · apply List.all_eq_true.mpr
    intro c hc
    have h := chSafe_not_space_quote c (sanitize_all_safe path c hc)
    rw [h.1, h.2]
    rfl
